import Mathlib

/-!
Shallow embedding of the `biokb_coconut` ETL pipeline
(`src/biokb_coconut/db/manager.py` and the table declarations in
`src/biokb_coconut/db/models.py`) and proofs about it.

Conventions:
* a dataframe cell is `Option String`; `none` stands for a NaN / NULL cell;
* dataframe columns are Lean lists kept in row order;
* pandas `drop_duplicates` / `Series.unique` keep the first occurrence of
  each value, which `pdDropDuplicates` mirrors;
* SQL tables are Lean lists of rows; an `UPDATE ... WHERE join-condition`
  is a map over the table, taking the first matching joined row (the
  engine-dependent tie-break of the source is fixed to "first row wins").
-/

namespace BiokbCoconut

/-- Helper for `pdDropDuplicates`: keep each element not already in `seen`,
first occurrence first. -/
def pdDropDupAux {α : Type} [DecidableEq α] (seen : List α) : List α → List α
  | [] => []
  | x :: xs =>
    if x ∈ seen then pdDropDupAux seen xs
    else x :: pdDropDupAux (x :: seen) xs

/-- First-occurrence duplicate removal: the behaviour of pandas
`DataFrame.drop_duplicates` / `Series.unique` (keep="first"). -/
def pdDropDuplicates {α : Type} [DecidableEq α] (l : List α) : List α :=
  pdDropDupAux [] l

theorem mem_pdDropDupAux {α : Type} [DecidableEq α] (a : α) (seen : List α)
    (l : List α) : a ∈ pdDropDupAux seen l ↔ a ∈ l ∧ a ∉ seen := by
  induction l generalizing seen with
  | nil => simp [pdDropDupAux]
  | cons x xs ih =>
    by_cases hx : x ∈ seen
    · rw [pdDropDupAux, if_pos hx, ih]
      constructor
      · rintro ⟨h1, h2⟩; exact ⟨List.mem_cons_of_mem _ h1, h2⟩
      · rintro ⟨h1, h2⟩
        rcases List.mem_cons.mp h1 with rfl | h1
        · exact absurd hx h2
        · exact ⟨h1, h2⟩
    · rw [pdDropDupAux, if_neg hx]
      by_cases ha : a = x
      · subst ha; simp [hx]
      · simp [List.mem_cons, ih, ha]

theorem mem_pdDropDuplicates {α : Type} [DecidableEq α] (a : α) (l : List α) :
    a ∈ pdDropDuplicates l ↔ a ∈ l := by
  rw [pdDropDuplicates, mem_pdDropDupAux]
  simp

theorem nodup_pdDropDupAux {α : Type} [DecidableEq α] (seen : List α)
    (l : List α) : (pdDropDupAux seen l).Nodup := by
  induction l generalizing seen with
  | nil => simp [pdDropDupAux]
  | cons x xs ih =>
    by_cases hx : x ∈ seen
    · rw [pdDropDupAux, if_pos hx]; exact ih seen
    · rw [pdDropDupAux, if_neg hx]
      refine List.nodup_cons.mpr ⟨?_, ih (x :: seen)⟩
      rw [mem_pdDropDupAux]
      rintro ⟨-, h⟩
      exact h (List.mem_cons_self x seen)

theorem nodup_pdDropDuplicates {α : Type} [DecidableEq α] (l : List α) :
    (pdDropDuplicates l).Nodup :=
  nodup_pdDropDupAux [] l

/-- Attach consecutive integer identities starting at `k` to a list of rows:
the effect of `df.index += k` before `to_sql` writes the index as `id`. -/
def withIdsFrom {α : Type} (k : Nat) : List α → List (Nat × α)
  | [] => []
  | x :: xs => (k, x) :: withIdsFrom (k + 1) xs

theorem map_fst_withIdsFrom {α : Type} (k : Nat) (l : List α) :
    (withIdsFrom k l).map Prod.fst = List.range' k l.length := by
  induction l generalizing k with
  | nil => rfl
  | cons x xs ih => simp [withIdsFrom, List.range', ih]

theorem map_snd_withIdsFrom {α : Type} (k : Nat) (l : List α) :
    (withIdsFrom k l).map Prod.snd = l := by
  induction l generalizing k with
  | nil => rfl
  | cons x xs ih => simp [withIdsFrom, ih]

theorem length_withIdsFrom {α : Type} (k : Nat) (l : List α) :
    (withIdsFrom k l).length = l.length := by
  induction l generalizing k with
  | nil => rfl
  | cons x xs ih => simp [withIdsFrom, ih]

theorem mem_withIdsFrom {α : Type} (k i : Nat) (a : α) (l : List α) :
    (i, a) ∈ withIdsFrom k l ↔ ∃ j, l[j]? = some a ∧ i = k + j := by
  induction l generalizing k with
  | nil => simp [withIdsFrom]
  | cons x xs ih =>
    simp only [withIdsFrom, List.mem_cons, Prod.mk.injEq, ih]
    constructor
    · rintro (⟨rfl, rfl⟩ | ⟨j, hj, rfl⟩)
      · exact ⟨0, by simp⟩
      · exact ⟨j + 1, by simpa using hj, by omega⟩
    · rintro ⟨j, hj, rfl⟩
      cases j with
      | zero =>
        left
        simp only [List.getElem?_cons_zero, Option.some.injEq] at hj
        exact ⟨by omega, hj.symm⟩
      | succ j => right; exact ⟨j, by simpa using hj, by omega⟩

/-- Python `str.split(sep)` for a one-character separator: splits at every
occurrence of `delim`, keeping empty pieces (`"".split("|") == [""]`).
`acc` holds the characters of the current piece, reversed. -/
def pySplitAux (delim : Char) : List Char → List Char → List String
  | [], acc => [String.mk acc.reverse]
  | c :: cs, acc =>
    if c = delim then String.mk acc.reverse :: pySplitAux delim cs []
    else pySplitAux delim cs (c :: acc)

/-- Python `s.split(delim)` on a string. -/
def pySplit (s : String) (delim : Char) : List String :=
  pySplitAux delim s.toList []

/-- ASCII whitespace as stripped by Python `str.strip()` (the source data is
ASCII; the full Unicode whitespace set is not needed here). -/
def pyIsSpace (c : Char) : Bool :=
  c = ' ' || c = '\t' || c = '\n' || c = '\r' || c = '\x0b' || c = '\x0c'

/-- Python `str.strip()`: remove leading and trailing whitespace. -/
def pyStrip (s : String) : String :=
  String.mk (((s.toList.dropWhile pyIsSpace).reverse.dropWhile pyIsSpace).reverse)

/-- Position lookup with ids starting at `k`: the value's row in a
uniquely-named lookup table (`none` when the value is absent). -/
def idIn (v : String) : List String → Nat → Option Nat
  | [], _ => none
  | x :: xs, k => if x = v then some k else idIn v xs (k + 1)

theorem idIn_eq_none_iff (v : String) (l : List String) (k : Nat) :
    idIn v l k = none ↔ v ∉ l := by
  induction l generalizing k with
  | nil => simp [idIn]
  | cons x xs ih =>
    by_cases h : x = v
    · simp [idIn, h]
    · simp only [idIn, if_neg h, ih, List.mem_cons]
      constructor
      · intro hv hc
        rcases hc with hc | hc
        · exact h hc.symm
        · exact hv hc
      · intro hv
        exact fun hc => hv (Or.inr hc)

theorem idIn_mem (v : String) (l : List String) (k i : Nat)
    (h : idIn v l k = some i) : (i, v) ∈ withIdsFrom k l := by
  induction l generalizing k with
  | nil => simp [idIn] at h
  | cons x xs ih =>
    by_cases hx : x = v
    · rw [idIn, if_pos hx] at h
      cases h
      simp [withIdsFrom, hx]
    · rw [idIn, if_neg hx] at h
      exact List.mem_cons_of_mem _ (ih (k + 1) h)

theorem idIn_isSome_of_mem (v : String) (l : List String) (k : Nat)
    (h : v ∈ l) : ∃ i, idIn v l k = some i := by
  cases hi : idIn v l k with
  | none => exact absurd h ((idIn_eq_none_iff v l k).mp hi)
  | some i => exact ⟨i, rfl⟩

/-! ### Lookup-Table Materializer (`DbManager.insert_one_to_n_table`)

Source (`manager.py` lines 139-156):
```
df_cc = (df[[column_name]].drop_duplicates().dropna()
           .rename(columns=\x7bcolumn_name: "name"\x7d)
           .reset_index(drop=True).rename_axis("id"))
df_cc.index += 1
inserted = df_cc.to_sql(...)
df_cc[f"\x7bcolumn_name\x7d_id"] = df_cc.index
return inserted or 0, df.merge(df_cc, how="left", left_on=column_name,
                               right_on="name", ...)
```
No `strip()` appears anywhere in this method: deduplication and the merge
both use the raw cell values. -/

/-- The `name` column of the lookup table: first-occurrence deduplication of
the raw cells, then NaN removal (`drop_duplicates().dropna()`). -/
def oneToNLookupNames (vals : List (Option String)) : List String :=
  (pdDropDuplicates vals).filterMap id

/-- The persisted lookup table `(id, name)`, ids dense from 1
(`reset_index(drop=True); df_cc.index += 1`). -/
def oneToNLookup (vals : List (Option String)) : List (Nat × String) :=
  withIdsFrom 1 (oneToNLookupNames vals)

/-- The `<column>_id` column added to the source table by the left merge on
raw value equality (`how="left", left_on=column_name, right_on="name"`):
a NaN cell matches no lookup row and keeps a NaN id. -/
def oneToNMergedIds (vals : List (Option String)) : List (Option Nat) :=
  vals.map (fun c => c.bind (fun v => idIn v (oneToNLookupNames vals) 1))

/-- The row count reported by `to_sql` for the lookup table. -/
def insertOneToNCount (vals : List (Option String)) : Nat :=
  (oneToNLookupNames vals).length

/-! ### Many-to-Many Expander (`DbManager.import_n2m_column`)

Source (`manager.py` lines 334-370):
```
df = column_series.dropna().str.split("|").explode().to_frame()
df_unique = pd.DataFrame(df.iloc[:, 0].str.strip().unique(), columns=[column_name])
df_unique.index += 1
inserted_unique = df_unique.to_sql(...)
df_unique[index_on[:-1] + "_id"] = df_unique.index
df["compound_id"] = df.index
df_1 = df.set_index(index_on)
df_2 = df_unique.set_index(column_name)
inserted_join = (df_1.join(df_2, how="inner")
                   .drop_duplicates(subset=["compound_id", index_on[:-1] + "_id"])
                   .to_sql(..., index=False))
```
Note: only `df_unique` holds *stripped* tokens; the exploded frame `df`
keeps the raw tokens, and the inner join is on raw-token = stripped-name
index equality. -/

/-- `column_series.dropna().str.split("|").explode()`: one `(compound_id,
raw token)` row per token, tokens not trimmed. -/
def explodeColumn (series : List (Nat × Option String)) : List (Nat × String) :=
  (series.filterMap (fun ic => ic.2.map (fun s => (ic.1, s)))).flatMap
    (fun p => (pySplit p.2 '|').map (fun t => (p.1, t)))

/-- `df.iloc[:, 0].str.strip().unique()`: stripped tokens, first-occurrence
order, duplicates removed. -/
def n2mUniqueNames (series : List (Nat × Option String)) : List String :=
  pdDropDuplicates ((explodeColumn series).map (fun p => pyStrip p.2))

/-- The persisted lookup table `(id, name)` with ids dense from 1. -/
def n2mLookup (series : List (Nat × Option String)) : List (Nat × String) :=
  withIdsFrom 1 (n2mUniqueNames series)

/-- The association rows written to the join table: inner join of the raw
exploded tokens against the stripped unique names, then
`drop_duplicates(subset=["compound_id", "<entity>_id"])`. -/
def n2mJoinRows (series : List (Nat × Option String)) : List (Nat × Nat) :=
  pdDropDuplicates ((explodeColumn series).filterMap
    (fun p => (idIn p.2 (n2mUniqueNames series) 1).map (fun k => (p.1, k))))

/-- The pair `(inserted_unique, inserted_join)` returned by
`import_n2m_column`. -/
def importN2mColumn (series : List (Nat × Option String)) : Nat × Nat :=
  ((n2mUniqueNames series).length, (n2mJoinRows series).length)

theorem mem_oneToNLookupNames (v : String) (vals : List (Option String)) :
    v ∈ oneToNLookupNames vals ↔ some v ∈ vals := by
  rw [oneToNLookupNames, List.mem_filterMap]
  constructor
  · rintro ⟨c, hc, hid⟩
    cases c with
    | none => cases hid
    | some w => cases hid; exact (mem_pdDropDuplicates _ _).mp hc
  · intro h
    exact ⟨some v, (mem_pdDropDuplicates _ _).mpr h, rfl⟩

theorem nodup_oneToNLookupNames (vals : List (Option String)) :
    (oneToNLookupNames vals).Nodup := by
  refine List.Nodup.filterMap ?_ (nodup_pdDropDuplicates vals)
  intro a a' b hb hb'
  cases a with
  | none => cases hb
  | some w => cases hb; cases a' with
    | none => cases hb'
    | some w' => cases hb'; rfl

/-- C1: evaluation of the Many-to-Many Expander at the claim's own input
cell `"A|A|  B "`.  The lookup table gets exactly the two distinct stripped
tokens `A` and `B` as claimed, but the join produces only ONE row, not two:
the padded raw token `"  B "` does not equal its stripped lookup name `"B"`,
so the inner join (raw exploded token against stripped unique name) drops
it.  The final conjunct shows that with the whitespace removed
(`"A|A|B"`) the expander does produce the two claimed join rows, isolating
the padding as the failing part. -/
theorem import_n2m_padded_token_loses_join_row :
    n2mUniqueNames [(1, some "A|A|  B ")] = ["A", "B"] ∧
    n2mJoinRows [(1, some "A|A|  B ")] = [(1, 1)] ∧
    importN2mColumn [(1, some "A|A|  B ")] = (2, 1) ∧
    importN2mColumn [(1, some "A|A|B")] = (2, 2) := by
  refine ⟨by decide, by decide, by decide, by decide⟩

/-- C2 counterexample: `insert_one_to_n_table` performs no `strip()` before
its uniqueness comparison.  The two cells `" A"` and `"A"` differ only by
leading whitespace (their stripped forms coincide) yet produce TWO lookup
rows, not one. -/
theorem insert_one_to_n_no_strip_counterexample :
    pyStrip " A" = pyStrip "A" ∧ " A" ≠ "A" ∧
    oneToNLookupNames [some " A", some "A"] = [" A", "A"] ∧
    insertOneToNCount [some " A", some "A"] = 2 := by
  refine ⟨by decide, by decide, by decide, by decide⟩

/-- C2 amended: the Lookup-Table Materializer applies no normalization at
all before its uniqueness comparison; deduplication is on raw cell values,
so any two distinct raw values — in particular two values differing only by
leading/trailing whitespace — yield two distinct lookup rows. -/
theorem insert_one_to_n_raw_value_uniqueness
    (vals : List (Option String)) (a b : String)
    (ha : some a ∈ vals) (hb : some b ∈ vals) (_hab : a ≠ b) :
    a ∈ oneToNLookupNames vals ∧ b ∈ oneToNLookupNames vals ∧
    (oneToNLookupNames vals).Nodup :=
  ⟨(mem_oneToNLookupNames a vals).mpr ha,
   (mem_oneToNLookupNames b vals).mpr hb,
   nodup_oneToNLookupNames vals⟩

/-- Witness for `insert_one_to_n_raw_value_uniqueness` at the
whitespace-variant input of the counterexample. -/
theorem insert_one_to_n_raw_value_uniqueness_witness :
    " A" ∈ oneToNLookupNames [some " A", some "A"] ∧
    "A" ∈ oneToNLookupNames [some " A", some "A"] ∧
    (oneToNLookupNames [some " A", some "A"]).Nodup :=
  insert_one_to_n_raw_value_uniqueness [some " A", some "A"] " A" "A"
    (by decide) (by decide) (by decide)

/-- C7: the Lookup-Table Materializer's contract.  For every input column:
the lookup table holds exactly the distinct non-null raw values, each once
(`Nodup` + membership iff); its ids are dense and 1-based; the merged
`<column>_id` column has one entry per source row; a null source cell gets a
null id; a non-null source cell gets the id of the lookup row carrying its
value. -/
theorem insert_one_to_n_lookup_contract (vals : List (Option String)) :
    (oneToNLookupNames vals).Nodup ∧
    (∀ v : String, v ∈ oneToNLookupNames vals ↔ some v ∈ vals) ∧
    (oneToNLookup vals).map Prod.fst =
      List.range' 1 (oneToNLookupNames vals).length ∧
    (oneToNMergedIds vals).length = vals.length ∧
    (∀ i : Nat, vals[i]? = some none → (oneToNMergedIds vals)[i]? = some none) ∧
    (∀ (i : Nat) (v : String), vals[i]? = some (some v) →
      ∃ k, (oneToNMergedIds vals)[i]? = some (some k) ∧
        (k, v) ∈ oneToNLookup vals) := by
  refine ⟨nodup_oneToNLookupNames vals,
    fun v => mem_oneToNLookupNames v vals,
    map_fst_withIdsFrom 1 _,
    List.length_map _ _,
    ?_, ?_⟩
  · intro i h
    rw [oneToNMergedIds, List.getElem?_map, h]
    rfl
  · intro i v h
    have hv : some v ∈ vals := List.getElem?_mem h
    have hmem : v ∈ oneToNLookupNames vals :=
      (mem_oneToNLookupNames v vals).mpr hv
    obtain ⟨k, hk⟩ := idIn_isSome_of_mem v (oneToNLookupNames vals) 1 hmem
    refine ⟨k, ?_, idIn_mem v _ 1 k hk⟩
    rw [oneToNMergedIds, List.getElem?_map, h]
    simp [hk]

/-- Witness for `insert_one_to_n_lookup_contract`: the null cell of
`[some "x", none]` gets a null id and the non-null cell gets the id of its
lookup row. -/
theorem insert_one_to_n_lookup_contract_witness :
    (oneToNMergedIds [some "x", none])[1]? = some none ∧
    ∃ k, (oneToNMergedIds [some "x", none])[0]? = some (some k) ∧
      (k, "x") ∈ oneToNLookup [some "x", none] :=
  ⟨(insert_one_to_n_lookup_contract [some "x", none]).2.2.2.2.1 1 (by decide),
   (insert_one_to_n_lookup_contract [some "x", none]).2.2.2.2.2 0 "x" (by decide)⟩

/-! ### External Taxonomy Reconciler
(`DbManager.update_organism_tax_ids`, lines 427-478, and
`DbManager.update_other_organism_ids_by_wcvp`, lines 480-561)

Each SQL `UPDATE ... WHERE <join condition>` is modelled per organism row:
when at least one reference row satisfies the join condition the organism's
fields are set from a matching row (first match in list order — the source
inherits the engine's unspecified choice, fixed here to "first row wins");
otherwise the organism row is unchanged. -/

/-- A row of the transient `coconut_taxonomy_name` table, parsed from the
NCBI `names.dmp` file. -/
structure TaxNameRow where
  tax_id : Nat
  name : String
  name_type : String
deriving DecidableEq, Repr

/-- A row of the `coconut_organism` table. -/
structure OrganismRow where
  id : Nat
  name : String
  tax_id : Option Nat := none
  ipni_id : Option String := none
  wcvp_id : Option Nat := none
  powo_id : Option String := none
deriving DecidableEq, Repr

/-- A row of the transient `coconut_wcvp_plant` table (species-rank rows of
the WCVP names file). -/
structure WCVPRow where
  plant_name_id : Nat
  taxon_name : Option String := none
  accepted_plant_name_id : Option Nat := none
  powo_id : Option String := none
  ipni_id : Option String := none
deriving DecidableEq, Repr

/-- First `UPDATE` of `update_organism_tax_ids`: set `tax_id` where
`Organism.name == TaxonomyName.name` and
`TaxonomyName.name_type == "scientific name"`. -/
def taxPassA (names : List TaxNameRow) (o : OrganismRow) : OrganismRow :=
  match names.find? (fun t => t.name == o.name &&
      t.name_type == "scientific name") with
  | some t => { o with tax_id := some t.tax_id }
  | none => o

/-- Second `UPDATE` of `update_organism_tax_ids`: set `tax_id` where
`Organism.name == TaxonomyName.name` and `Organism.tax_id IS NULL`,
regardless of `name_type`. -/
def taxPassB (names : List TaxNameRow) (o : OrganismRow) : OrganismRow :=
  match o.tax_id with
  | some _ => o
  | none =>
    match names.find? (fun t => t.name == o.name) with
    | some t => { o with tax_id := some t.tax_id }
    | none => o

/-- Both passes of `update_organism_tax_ids` over the organism table. -/
def updateOrganismTaxIds (names : List TaxNameRow)
    (orgs : List OrganismRow) : List OrganismRow :=
  (orgs.map (taxPassA names)).map (taxPassB names)

/-- Join condition of the first WCVP `UPDATE`: name matches and the row is
its own accepted name (`plant_name_id == accepted_plant_name_id`; false
when the accepted id is NULL). -/
def wcvpAcceptedMatch (o : OrganismRow) (p : WCVPRow) : Bool :=
  p.taxon_name == some o.name &&
    some p.plant_name_id == p.accepted_plant_name_id

/-- First `UPDATE` of `update_other_organism_ids_by_wcvp`. -/
def wcvpPassA (plants : List WCVPRow) (o : OrganismRow) : OrganismRow :=
  match plants.find? (wcvpAcceptedMatch o) with
  | some p => { o with ipni_id := p.ipni_id, powo_id := p.powo_id,
                       wcvp_id := some p.plant_name_id }
  | none => o

/-- Join condition of the second WCVP `UPDATE`: name matches and the row is
a synonym (`plant_name_id != accepted_plant_name_id`, accepted id present;
in SQL `!=` against NULL is not true, and the source adds an explicit
`accepted_plant_name_id IS NOT NULL`). -/
def wcvpSynonymMatch (o : OrganismRow) (p : WCVPRow) : Bool :=
  p.taxon_name == some o.name &&
    match p.accepted_plant_name_id with
    | some a => a != p.plant_name_id
    | none => false

/-- Second `UPDATE` of `update_other_organism_ids_by_wcvp`: only organisms
still missing `wcvp_id`; sets `ipni_id` and `powo_id` from the matched row
and `wcvp_id` from the matched row's `accepted_plant_name_id`. -/
def wcvpPassB (plants : List WCVPRow) (o : OrganismRow) : OrganismRow :=
  match o.wcvp_id with
  | some _ => o
  | none =>
    match plants.find? (wcvpSynonymMatch o) with
    | some p => { o with ipni_id := p.ipni_id, powo_id := p.powo_id,
                         wcvp_id := p.accepted_plant_name_id }
    | none => o

/-- Both passes of `update_other_organism_ids_by_wcvp` over the organism
table. -/
def updateOtherOrganismIdsByWcvp (plants : List WCVPRow)
    (orgs : List OrganismRow) : List OrganismRow :=
  (orgs.map (wcvpPassA plants)).map (wcvpPassB plants)

/-- C3 counterexample: in the WCVP fallback pass, an organism matching the
synonym row `(plant_name_id=5, accepted_plant_name_id=9, ipni "ipni-5",
powo "powo-5")` does get `wcvp_id = 9`, but its `ipni_id` and `powo_id` are
the synonym row's own `"ipni-5"`/`"powo-5"`, not the accepted row 9's
`"ipni-9"`/`"powo-9"`: the claim that all three fields come from the
accepted counterpart is false. -/
theorem wcvp_fallback_keeps_synonym_ipni_powo :
    (updateOtherOrganismIdsByWcvp
      [⟨5, some "Foo", some 9, some "powo-5", some "ipni-5"⟩,
       ⟨9, some "Bar", some 9, some "powo-9", some "ipni-9"⟩]
      [⟨1, "Foo", none, none, none, none⟩]) =
      [⟨1, "Foo", none, some "ipni-5", some 9, some "powo-5"⟩] ∧
    some "ipni-5" ≠ some "ipni-9" ∧ some "powo-5" ≠ some "powo-9" := by
  refine ⟨by decide, by decide, by decide⟩

/-- C3 amended: in the WCVP fallback pass, for every organism still missing
`wcvp_id` whose first matching reference row is a synonym row `p`,
`wcvp_id` is set to the accepted counterpart's identifier
(`p.accepted_plant_name_id`, which differs from the synonym's own
`plant_name_id`), while `ipni_id` and `powo_id` are set from the synonym
row `p`'s own columns. -/
theorem wcvp_fallback_resolves_to_accepted_id
    (plants : List WCVPRow) (o : OrganismRow) (p : WCVPRow)
    (h0 : o.wcvp_id = none)
    (hfind : plants.find? (wcvpSynonymMatch o) = some p) :
    wcvpPassB plants o =
      { o with ipni_id := p.ipni_id, powo_id := p.powo_id,
               wcvp_id := p.accepted_plant_name_id } ∧
    p ∈ plants ∧ p.taxon_name = some o.name ∧
    ∃ a, p.accepted_plant_name_id = some a ∧ a ≠ p.plant_name_id ∧
      (wcvpPassB plants o).wcvp_id = some a := by
  have hres : wcvpPassB plants o =
      { o with ipni_id := p.ipni_id, powo_id := p.powo_id,
               wcvp_id := p.accepted_plant_name_id } := by
    rw [wcvpPassB, h0, hfind]
  have hp := List.find?_some hfind
  rw [wcvpSynonymMatch, Bool.and_eq_true] at hp
  obtain ⟨hname, hsyn⟩ := hp
  refine ⟨hres, List.mem_of_find?_eq_some hfind, by simpa using hname, ?_⟩
  cases hacc : p.accepted_plant_name_id with
  | none => rw [hacc] at hsyn; cases hsyn
  | some a =>
    rw [hacc] at hsyn
    refine ⟨a, rfl, by simpa using hsyn, ?_⟩
    rw [hres, hacc]

/-- Witness for `wcvp_fallback_resolves_to_accepted_id`: the synonym row
`plant_name_id=5, accepted_plant_name_id=9` resolves the organism to
`wcvp_id = 9`, not 5. -/
theorem wcvp_fallback_resolves_to_accepted_id_witness :
    ∃ a, (⟨5, some "Foo", some 9, some "powo-5", some "ipni-5"⟩ :
        WCVPRow).accepted_plant_name_id = some a ∧
      a ≠ (⟨5, some "Foo", some 9, some "powo-5", some "ipni-5"⟩ :
        WCVPRow).plant_name_id ∧
      (wcvpPassB
        [⟨5, some "Foo", some 9, some "powo-5", some "ipni-5"⟩,
         ⟨9, some "Bar", some 9, some "powo-9", some "ipni-9"⟩]
        ⟨1, "Foo", none, none, none, none⟩).wcvp_id = some a :=
  (wcvp_fallback_resolves_to_accepted_id
    [⟨5, some "Foo", some 9, some "powo-5", some "ipni-5"⟩,
     ⟨9, some "Bar", some 9, some "powo-9", some "ipni-9"⟩]
    ⟨1, "Foo", none, none, none, none⟩
    ⟨5, some "Foo", some 9, some "powo-5", some "ipni-5"⟩
    (by decide) (by decide)).2.2.2

/-- C4: the two passes of `update_organism_tax_ids`.  Pass A changes an
organism only when a `"scientific name"` row matches its name, and then
sets `tax_id` from such a row; Pass B changes an organism only when its
`tax_id` is still null (matching on name regardless of `name_type`); hence
a `tax_id` assigned in Pass A is never overwritten by Pass B. -/
theorem update_organism_tax_ids_two_pass
    (names : List TaxNameRow) (o : OrganismRow) :
    (taxPassA names o ≠ o →
       ∃ t ∈ names, t.name = o.name ∧ t.name_type = "scientific name") ∧
    ((∃ t ∈ names, t.name = o.name ∧ t.name_type = "scientific name") →
       ∃ t ∈ names, t.name = o.name ∧ t.name_type = "scientific name" ∧
         (taxPassA names o).tax_id = some t.tax_id) ∧
    (∀ v : Nat, (taxPassA names o).tax_id = some v →
       taxPassB names (taxPassA names o) = taxPassA names o) ∧
    (taxPassB names o ≠ o → o.tax_id = none ∧ ∃ t ∈ names, t.name = o.name) := by
  refine ⟨?_, ?_, ?_, ?_⟩
  · intro hne
    cases hfind : names.find?
        (fun t => t.name == o.name && t.name_type == "scientific name") with
    | none => exact absurd (by rw [taxPassA, hfind]) hne
    | some t =>
      have ht := List.find?_some hfind
      rw [Bool.and_eq_true, beq_iff_eq, beq_iff_eq] at ht
      exact ⟨t, List.mem_of_find?_eq_some hfind, ht.1, ht.2⟩
  · rintro ⟨t0, ht0mem, ht0n, ht0ty⟩
    cases hfind : names.find?
        (fun t => t.name == o.name && t.name_type == "scientific name") with
    | none =>
      rw [List.find?_eq_none] at hfind
      exact absurd (by simp [ht0n, ht0ty]) (hfind t0 ht0mem)
    | some t =>
      have ht := List.find?_some hfind
      rw [Bool.and_eq_true, beq_iff_eq, beq_iff_eq] at ht
      refine ⟨t, List.mem_of_find?_eq_some hfind, ht.1, ht.2, ?_⟩
      rw [taxPassA, hfind]
  · intro v hv
    rw [taxPassB, hv]
  · intro hne
    cases htax : o.tax_id with
    | some v => exact absurd (by rw [taxPassB, htax]) hne
    | none =>
      cases hfind : names.find? (fun t => t.name == o.name) with
      | none => exact absurd (by rw [taxPassB, htax, hfind]) hne
      | some t =>
        have ht := List.find?_some hfind
        rw [beq_iff_eq] at ht
        exact ⟨rfl, t, List.mem_of_find?_eq_some hfind, ht⟩

/-- Witness for `update_organism_tax_ids_two_pass`: the spec's own scenario.
`"Bar"` matches a `"scientific name"` row, Pass A fills its `tax_id`, and
Pass B leaves the row untouched. -/
theorem update_organism_tax_ids_two_pass_witness :
    (∃ t ∈ [⟨7, "Foo", "common name"⟩, (⟨3, "Bar", "scientific name"⟩ :
        TaxNameRow)], t.name = "Bar" ∧ t.name_type = "scientific name" ∧
      (taxPassA [⟨7, "Foo", "common name"⟩, ⟨3, "Bar", "scientific name"⟩]
        ⟨2, "Bar", none, none, none, none⟩).tax_id = some t.tax_id) ∧
    taxPassB [⟨7, "Foo", "common name"⟩, ⟨3, "Bar", "scientific name"⟩]
        (taxPassA [⟨7, "Foo", "common name"⟩, ⟨3, "Bar", "scientific name"⟩]
          ⟨2, "Bar", none, none, none, none⟩) =
      taxPassA [⟨7, "Foo", "common name"⟩, ⟨3, "Bar", "scientific name"⟩]
        ⟨2, "Bar", none, none, none, none⟩ :=
  ⟨(update_organism_tax_ids_two_pass
      [⟨7, "Foo", "common name"⟩, ⟨3, "Bar", "scientific name"⟩]
      ⟨2, "Bar", none, none, none, none⟩).2.1
      ⟨⟨3, "Bar", "scientific name"⟩, by decide, rfl, rfl⟩,
   (update_organism_tax_ids_two_pass
      [⟨7, "Foo", "common name"⟩, ⟨3, "Bar", "scientific name"⟩]
      ⟨2, "Bar", none, none, none, none⟩).2.2.1 3 (by decide)⟩

/-! ### Pipeline Orchestrator (`DbManager.import_data`, lines 158-304)

One row of the input CSV carries the seven classification name columns, the
five pipe-delimited multi-value columns (after the source's `cas` →
`cas_numbers` rename), and the fixed scalar compound columns; the scalars
play no role in any claim below and are represented by the compound's
unique `identifier`. -/

structure InputRow where
  identifier : String
  chemical_super_class : Option String := none
  chemical_class : Option String := none
  chemical_sub_class : Option String := none
  direct_parent_classification : Option String := none
  np_classifier_pathway : Option String := none
  np_classifier_superclass : Option String := none
  np_classifier_class : Option String := none
  collections : Option String := none
  organisms : Option String := none
  dois : Option String := none
  synonyms : Option String := none
  cas_numbers : Option String := none
deriving DecidableEq, Repr

/-- A compound row as written by the bulk loader: the scalar columns
(represented by `identifier`) plus the seven resolved `_id` foreign keys;
the classification *name* columns are not part of this shape. -/
structure EnrichedRow where
  identifier : String
  chemical_class_id : Option Nat := none
  chemical_sub_class_id : Option Nat := none
  direct_parent_classification_id : Option Nat := none
  chemical_super_class_id : Option Nat := none
  np_classifier_pathway_id : Option Nat := none
  np_classifier_superclass_id : Option Nat := none
  np_classifier_class_id : Option Nat := none
deriving DecidableEq, Repr

/-- The seven successive `insert_one_to_n_table` merges: each adds the
`<column>_id` column looked up in that column's own lookup table.  The
merges are `how="left"` on lookup names that are unique
(`nodup_oneToNLookupNames`), so they neither duplicate nor reorder rows:
row-wise id attachment is exact. -/
def enrichRow (rows : List InputRow) (r : InputRow) : EnrichedRow :=
  { identifier := r.identifier,
    chemical_class_id := r.chemical_class.bind
      (fun v => idIn v (oneToNLookupNames (rows.map
        (fun q => q.chemical_class))) 1),
    chemical_sub_class_id := r.chemical_sub_class.bind
      (fun v => idIn v (oneToNLookupNames (rows.map
        (fun q => q.chemical_sub_class))) 1),
    direct_parent_classification_id := r.direct_parent_classification.bind
      (fun v => idIn v (oneToNLookupNames (rows.map
        (fun q => q.direct_parent_classification))) 1),
    chemical_super_class_id := r.chemical_super_class.bind
      (fun v => idIn v (oneToNLookupNames (rows.map
        (fun q => q.chemical_super_class))) 1),
    np_classifier_pathway_id := r.np_classifier_pathway.bind
      (fun v => idIn v (oneToNLookupNames (rows.map
        (fun q => q.np_classifier_pathway))) 1),
    np_classifier_superclass_id := r.np_classifier_superclass.bind
      (fun v => idIn v (oneToNLookupNames (rows.map
        (fun q => q.np_classifier_superclass))) 1),
    np_classifier_class_id := r.np_classifier_class.bind
      (fun v => idIn v (oneToNLookupNames (rows.map
        (fun q => q.np_classifier_class))) 1) }

def enrich (rows : List InputRow) : List EnrichedRow :=
  rows.map (enrichRow rows)

/-- The Compound table as written by `df[column_names].to_sql(...)` after
`df.reset_index(); df.index += 1; df.index.name = "id"`: the enriched rows
in input order, with the 1-based position as primary key. -/
def compoundTable (rows : List InputRow) : List (Nat × EnrichedRow) :=
  withIdsFrom 1 (enrich rows)

/-- A multi-value column of the dataframe at the time of the
`import_n2m_column` calls: the dataframe index (the compound id, `1..n`)
paired with the column's cell. -/
def columnSeries (f : InputRow → Option String) (rows : List InputRow) :
    List (Nat × Option String) :=
  (withIdsFrom 1 rows).map (fun p => (p.1, f p.2))

/-- Organism table rows as first inserted by `import_n2m_column` (external
ids all NULL; they are backfilled by the reconciler afterwards). -/
def organismRowsOf (lookup : List (Nat × String)) : List OrganismRow :=
  lookup.map (fun p => { id := p.1, name := p.2 })

/-- The relational store: every table mapped by `models.Base` (the 18
durable tables plus the two transient reference tables). -/
structure DB where
  chemical_super_class : List (Nat × String) := []
  chemical_class : List (Nat × String) := []
  chemical_sub_class : List (Nat × String) := []
  direct_parent_classification : List (Nat × String) := []
  np_classifier_pathway : List (Nat × String) := []
  np_classifier_superclass : List (Nat × String) := []
  np_classifier_class : List (Nat × String) := []
  compound : List (Nat × EnrichedRow) := []
  collection : List (Nat × String) := []
  organism : List OrganismRow := []
  doi : List (Nat × String) := []
  synonym : List (Nat × String) := []
  cas : List (Nat × String) := []
  compound_collection : List (Nat × Nat) := []
  compound_organism : List (Nat × Nat) := []
  compound_doi : List (Nat × Nat) := []
  compound_synonym : List (Nat × Nat) := []
  compound_cas : List (Nat × Nat) := []
  taxonomy_name : List TaxNameRow := []
  wcvp_plant : List WCVPRow := []
deriving DecidableEq, Repr

/-- `recreate_db` = `drop_db` (`metadata.drop_all`) followed by `create_db`
(`metadata.create_all`): every mapped table ends up existing and empty,
whatever the store held before. -/
def recreateDb (_db : DB) : DB := {}

/-- `_import_tax_names`: drop and recreate the `taxonomy_name` table, then
bulk-insert the parsed `names.dmp` rows. -/
def dbAfterTaxNamesImport (db : DB) (taxNames : List TaxNameRow) : DB :=
  { db with taxonomy_name := taxNames }

/-- `update_organism_tax_ids`: import the transient name table, run the two
update passes over the organism table, then drop the transient table. -/
def updateOrganismTaxIdsDB (db : DB) (taxNames : List TaxNameRow) : DB :=
  let db1 := dbAfterTaxNamesImport db taxNames
  let db2 := { db1 with organism := updateOrganismTaxIds taxNames db1.organism }
  { db2 with taxonomy_name := [] }

/-- `update_other_organism_ids_by_wcvp`: populate the transient WCVP table
with the parsed species-rank rows, run the two update passes, then drop the
transient table. -/
def updateWcvpDB (db : DB) (plants : List WCVPRow) : DB :=
  let db1 := { db with wcvp_plant := plants }
  let db2 := { db1 with organism := updateOtherOrganismIdsByWcvp plants db1.organism }
  { db2 with wcvp_plant := [] }

/-- The `__tablename__` strings of the 18 durable tables
(`Base.table_prefix = "coconut_"`), in the order `import_data` fills its
`inserted` dictionary. -/
def durableTableNames : List String :=
  ["coconut_chemical_super_class", "coconut_chemical_class",
   "coconut_chemical_sub_class", "coconut_direct_parent_classification",
   "coconut_np_classifier_pathway", "coconut_np_classifier_superclass",
   "coconut_np_classifier_class", "coconut_compound",
   "coconut_collection", "coconut_compound__collection",
   "coconut_organism", "coconut_compound__organism",
   "coconut_doi", "coconut_compound_doi",
   "coconut_synonym", "coconut_compound__synonym",
   "coconut_cas", "coconut_compound_cas"]

/-- Row count of a table of the store, by `__tablename__`. -/
def tableCount (db : DB) : String → Nat
  | "coconut_chemical_super_class" => db.chemical_super_class.length
  | "coconut_chemical_class" => db.chemical_class.length
  | "coconut_chemical_sub_class" => db.chemical_sub_class.length
  | "coconut_direct_parent_classification" =>
      db.direct_parent_classification.length
  | "coconut_np_classifier_pathway" => db.np_classifier_pathway.length
  | "coconut_np_classifier_superclass" => db.np_classifier_superclass.length
  | "coconut_np_classifier_class" => db.np_classifier_class.length
  | "coconut_compound" => db.compound.length
  | "coconut_collection" => db.collection.length
  | "coconut_compound__collection" => db.compound_collection.length
  | "coconut_organism" => db.organism.length
  | "coconut_compound__organism" => db.compound_organism.length
  | "coconut_doi" => db.doi.length
  | "coconut_compound_doi" => db.compound_doi.length
  | "coconut_synonym" => db.synonym.length
  | "coconut_compound__synonym" => db.compound_synonym.length
  | "coconut_cas" => db.cas.length
  | "coconut_compound_cas" => db.compound_cas.length
  | "coconut_taxonomy_name" => db.taxonomy_name.length
  | "coconut_wcvp_plant" => db.wcvp_plant.length
  | _ => 0

/-- `DbManager.import_data` after the input file has been read and parsed:
recreate the schema, materialize the seven classification lookups, bulk
load the compound table, expand the five many-to-many columns, run the two
external reconcilers, and return the final store with the `inserted`
table-to-row-count map.  `taxNames` and `plants` are the parsed contents of
the two downloaded reference dumps. -/
def importData (db : DB) (rows : List InputRow) (taxNames : List TaxNameRow)
    (plants : List WCVPRow) : DB × List (String × Nat) :=
  let db0 := recreateDb db
  let csup := oneToNLookup (rows.map (fun r => r.chemical_super_class))
  let ccls := oneToNLookup (rows.map (fun r => r.chemical_class))
  let csub := oneToNLookup (rows.map (fun r => r.chemical_sub_class))
  let dpc := oneToNLookup (rows.map (fun r => r.direct_parent_classification))
  let ncp := oneToNLookup (rows.map (fun r => r.np_classifier_pathway))
  let ncs := oneToNLookup (rows.map (fun r => r.np_classifier_superclass))
  let ncc := oneToNLookup (rows.map (fun r => r.np_classifier_class))
  let comp := compoundTable rows
  let colS := columnSeries (fun r => r.collections) rows
  let orgS := columnSeries (fun r => r.organisms) rows
  let doiS := columnSeries (fun r => r.dois) rows
  let synS := columnSeries (fun r => r.synonyms) rows
  let casS := columnSeries (fun r => r.cas_numbers) rows
  let db1 := { db0 with
    chemical_super_class := db0.chemical_super_class ++ csup,
    chemical_class := db0.chemical_class ++ ccls,
    chemical_sub_class := db0.chemical_sub_class ++ csub,
    direct_parent_classification := db0.direct_parent_classification ++ dpc,
    np_classifier_pathway := db0.np_classifier_pathway ++ ncp,
    np_classifier_superclass := db0.np_classifier_superclass ++ ncs,
    np_classifier_class := db0.np_classifier_class ++ ncc,
    compound := db0.compound ++ comp,
    collection := db0.collection ++ n2mLookup colS,
    organism := db0.organism ++ organismRowsOf (n2mLookup orgS),
    doi := db0.doi ++ n2mLookup doiS,
    synonym := db0.synonym ++ n2mLookup synS,
    cas := db0.cas ++ n2mLookup casS,
    compound_collection := db0.compound_collection ++ n2mJoinRows colS,
    compound_organism := db0.compound_organism ++ n2mJoinRows orgS,
    compound_doi := db0.compound_doi ++ n2mJoinRows doiS,
    compound_synonym := db0.compound_synonym ++ n2mJoinRows synS,
    compound_cas := db0.compound_cas ++ n2mJoinRows casS }
  let db2 := updateOrganismTaxIdsDB db1 taxNames
  let db3 := updateWcvpDB db2 plants
  (db3,
   [("coconut_chemical_super_class", csup.length),
    ("coconut_chemical_class", ccls.length),
    ("coconut_chemical_sub_class", csub.length),
    ("coconut_direct_parent_classification", dpc.length),
    ("coconut_np_classifier_pathway", ncp.length),
    ("coconut_np_classifier_superclass", ncs.length),
    ("coconut_np_classifier_class", ncc.length),
    ("coconut_compound", comp.length),
    ("coconut_collection", (n2mLookup colS).length),
    ("coconut_compound__collection", (n2mJoinRows colS).length),
    ("coconut_organism", (n2mLookup orgS).length),
    ("coconut_compound__organism", (n2mJoinRows orgS).length),
    ("coconut_doi", (n2mLookup doiS).length),
    ("coconut_compound_doi", (n2mJoinRows doiS).length),
    ("coconut_synonym", (n2mLookup synS).length),
    ("coconut_compound__synonym", (n2mJoinRows synS).length),
    ("coconut_cas", (n2mLookup casS).length),
    ("coconut_compound_cas", (n2mJoinRows casS).length)])

/-- The column list of `models.Compound.__table__`, in declaration order. -/
def compoundTableColumns : List String :=
  ["id", "identifier", "canonical_smiles", "standard_inchi",
   "standard_inchi_key", "name", "iupac_name", "annotation_level",
   "total_atom_count", "heavy_atom_count", "molecular_weight",
   "exact_molecular_weight", "molecular_formula", "alogp",
   "topological_polar_surface_area", "rotatable_bond_count",
   "hydrogen_bond_acceptors", "hydrogen_bond_donors",
   "hydrogen_bond_acceptors_lipinski", "hydrogen_bond_donors_lipinski",
   "lipinski_rule_of_five_violations", "aromatic_rings_count",
   "qed_drug_likeliness", "formal_charge", "fractioncsp3",
   "number_of_minimal_rings", "van_der_walls_volume", "contains_sugar",
   "contains_ring_sugars", "contains_linear_sugars", "murcko_framework",
   "np_likeness", "np_classifier_is_glycoside", "chemical_class_id",
   "chemical_sub_class_id", "direct_parent_classification_id",
   "chemical_super_class_id", "np_classifier_pathway_id",
   "np_classifier_superclass_id", "np_classifier_class_id"]

/-- `column_names` of `import_data` lines 232-236: every Compound table
column except `id`; `df[column_names]` restricts the written frame to
exactly these. -/
def compoundWrittenColumns : List String :=
  compoundTableColumns.filter (fun c => c ≠ "id")

/-- The seven classification *name* columns of the raw CSV, which remain in
the working dataframe after the merges but are not Compound table columns. -/
def classificationNameColumns : List String :=
  ["chemical_super_class", "chemical_class", "chemical_sub_class",
   "direct_parent_classification", "np_classifier_pathway",
   "np_classifier_superclass", "np_classifier_class"]

theorem getElem?_withIdsFrom {α : Type} (k i : Nat) (l : List α) :
    (withIdsFrom k l)[i]? = (l[i]?).map (fun a => (k + i, a)) := by
  induction l generalizing k i with
  | nil => simp [withIdsFrom]
  | cons x xs ih =>
    cases i with
    | zero => simp [withIdsFrom]
    | succ i =>
      simp only [withIdsFrom, List.getElem?_cons_succ, ih]
      cases xs[i]? with
      | none => rfl
      | some a => simp; omega

theorem length_enrich (rows : List InputRow) :
    (enrich rows).length = rows.length :=
  List.length_map rows (enrichRow rows)

theorem length_compoundTable (rows : List InputRow) :
    (compoundTable rows).length = rows.length := by
  rw [compoundTable, length_withIdsFrom, length_enrich]

/-- C5 counterexample: a run whose taxonomy dump holds one row writes that
row into the transient `coconut_taxonomy_name` table (the table is touched
by the run), yet the returned map has no entry for it: the map does not
cover *every* table touched. -/
theorem import_data_counts_omit_touched_transient_table :
    (dbAfterTaxNamesImport (recreateDb {})
        [⟨9606, "Homo sapiens", "scientific name"⟩]).taxonomy_name.length = 1 ∧
    (importData {} [] [⟨9606, "Homo sapiens", "scientific name"⟩] []).2.lookup
        "coconut_taxonomy_name" = none ∧
    ((importData {} [] [⟨9606, "Homo sapiens", "scientific name"⟩] []).2.map
        Prod.fst).contains "coconut_taxonomy_name" = false := by
  refine ⟨by decide, by decide, by decide⟩

/-- C5 amended: on terminal success `import_data` returns one entry per
*durable* table — the 18 tables that remain in the recreated schema — and
each entry's count equals the number of rows of that table in the final
store; the two transient reference tables (`taxonomy_name`, `wcvp_plant`),
although written during the run, are dropped before return and carry no
entry. -/
theorem import_data_returns_durable_table_counts
    (db : DB) (rows : List InputRow) (taxNames : List TaxNameRow)
    (plants : List WCVPRow) :
    (importData db rows taxNames plants).2 =
      durableTableNames.map
        (fun t => (t, tableCount (importData db rows taxNames plants).1 t)) ∧
    (importData db rows taxNames plants).1.taxonomy_name = [] ∧
    (importData db rows taxNames plants).1.wcvp_plant = [] := by
  refine ⟨?_, rfl, rfl⟩
  simp [importData, recreateDb, updateOrganismTaxIdsDB, updateWcvpDB,
    dbAfterTaxNamesImport, durableTableNames, tableCount,
    updateOrganismTaxIds, updateOtherOrganismIdsByWcvp, organismRowsOf]

/-- C6: running the pipeline a second time against the store produced by a
first run returns exactly the same result (same per-table counts, same
final store), because `recreate_db` drops and recreates the whole schema:
the reset of any prior store is the empty store. -/
theorem reimport_yields_identical_counts
    (db : DB) (rows : List InputRow) (taxNames : List TaxNameRow)
    (plants : List WCVPRow) :
    importData (importData db rows taxNames plants).1 rows taxNames plants =
      importData db rows taxNames plants ∧
    recreateDb db = ({} : DB) :=
  ⟨rfl, rfl⟩

/-- C8: the Compound Bulk Loader writes the enriched rows in input order
with a dense 1-based primary key equal to the row position; the written
column set is the fixed Compound schema minus `id`, which excludes every
classification *name* column while containing its resolved `_id` column;
and the orchestrator's summary records the written row count. -/
theorem compound_bulk_loader_contract
    (db : DB) (rows : List InputRow) (taxNames : List TaxNameRow)
    (plants : List WCVPRow) :
    (compoundTable rows).map Prod.fst = List.range' 1 rows.length ∧
    (compoundTable rows).map Prod.snd = enrich rows ∧
    (∀ i : Nat, (compoundTable rows)[i]? =
      ((enrich rows)[i]?).map (fun r => (i + 1, r))) ∧
    (∀ c ∈ classificationNameColumns,
      c ∉ compoundWrittenColumns ∧ (c ++ "_id") ∈ compoundWrittenColumns) ∧
    (importData db rows taxNames plants).2.lookup "coconut_compound" =
      some (compoundTable rows).length ∧
    (compoundTable rows).length = rows.length := by
  refine ⟨?_, map_snd_withIdsFrom 1 _, ?_, by decide, ?_, length_compoundTable rows⟩
  · rw [compoundTable, map_fst_withIdsFrom, length_enrich]
  · intro i
    rw [compoundTable, getElem?_withIdsFrom]
    have h1 : 1 + i = i + 1 := Nat.add_comm 1 i
    rw [h1]
  · rfl

/-- Witness for `compound_bulk_loader_contract`: the `chemical_class` name
column is excluded from the written columns while `chemical_class_id` is
included. -/
theorem compound_bulk_loader_contract_witness :
    "chemical_class" ∉ compoundWrittenColumns ∧
    "chemical_class" ++ "_id" ∈ compoundWrittenColumns :=
  (compound_bulk_loader_contract {} [] [] []).2.2.2.1 "chemical_class"
    (by decide)

/-! ### File handling (`set_path_to_file`, lines 72-85; source selection
`path_to_file = self.path_to_file or self.download_data(...)`, line 188;
cleanup `if not keep_files: os.remove(path_to_file)`, lines 301-303) -/

/-- The file system: the set of existing paths. -/
structure FS where
  files : List String
deriving DecidableEq, Repr

/-- Python `os.path.exists`; the empty path never names an existing file. -/
def osPathExists (fs : FS) (p : String) : Bool :=
  p ≠ "" && fs.files.contains p

/-- The `DbManager` state relevant to file handling. -/
structure MgrState where
  path_to_file : Option String := none
deriving DecidableEq, Repr

/-- Outcome of a method call that may raise: whether it raised, and the
manager state afterwards (`set_path_to_file` checks before it mutates, so a
raise leaves the state untouched). -/
structure CallResult where
  raised : Bool
  state : MgrState
deriving DecidableEq, Repr

/-- `set_path_to_file`: raise `FileNotFoundError` when the path does not
exist, otherwise record the path. -/
def setPathToFile (fs : FS) (st : MgrState) (p : String) : CallResult :=
  if osPathExists fs p then ⟨false, { st with path_to_file := some p }⟩
  else ⟨true, st⟩

/-- Source selection of `import_data`: the path read, and whether
`download_data` was invoked for the primary dataset.  Python `or` falls
through on `None` and on the empty (falsy) string. -/
def importDataSourcePath (st : MgrState) (downloadedPath : String) :
    String × Bool :=
  match st.path_to_file with
  | some p => if p = "" then (downloadedPath, true) else (p, false)
  | none => (downloadedPath, true)

/-- Cleanup at the end of `import_data`: unless `keep_files`,
`os.remove(path_to_file)` deletes the file that was read — whatever its
origin. -/
def importDataCleanup (fs : FS) (pathToFile : String) (keepFiles : Bool) : FS :=
  if keepFiles then fs else ⟨fs.files.erase pathToFile⟩

/-- C9: `set_path_to_file` raises `FileNotFoundError` iff the path does not
exist, leaving `path_to_file` unchanged in that case; after a successful
call `import_data` reads from exactly that path and does not download the
primary dataset. -/
theorem set_path_to_file_spec (fs : FS) (st : MgrState) (p : String) :
    ((setPathToFile fs st p).raised = true ↔ osPathExists fs p = false) ∧
    ((setPathToFile fs st p).raised = true →
      (setPathToFile fs st p).state = st) ∧
    ((setPathToFile fs st p).raised = false →
      (setPathToFile fs st p).state.path_to_file = some p ∧
      ∀ d, importDataSourcePath (setPathToFile fs st p).state d = (p, false)) := by
  by_cases h : osPathExists fs p
  · have hne : p ≠ "" := by
      rw [osPathExists, Bool.and_eq_true] at h
      exact of_decide_eq_true h.1
    simp [setPathToFile, h, importDataSourcePath, hne]
  · simp [setPathToFile, h]

/-- Witness for `set_path_to_file_spec`: setting an existing path makes
`import_data` read it without downloading. -/
theorem set_path_to_file_spec_witness :
    (setPathToFile ⟨["data.zip"]⟩ {} "data.zip").state.path_to_file =
      some "data.zip" ∧
    ∀ d, importDataSourcePath
      (setPathToFile ⟨["data.zip"]⟩ {} "data.zip").state d =
        ("data.zip", false) :=
  (set_path_to_file_spec ⟨["data.zip"]⟩ {} "data.zip").2.2 (by decide)

/-- C10: with `keep_files=False` a successful `import_data` run deletes the
file it read — also a caller-supplied file registered via
`set_path_to_file` — while `keep_files=True` leaves the file system
untouched. -/
theorem import_data_removes_read_file
    (fs : FS) (st : MgrState) (p d : String)
    (hok : (setPathToFile fs st p).raised = false)
    (hnd : fs.files.Nodup) :
    importDataSourcePath (setPathToFile fs st p).state d = (p, false) ∧
    (importDataCleanup fs p false).files = fs.files.erase p ∧
    p ∉ (importDataCleanup fs p false).files ∧
    importDataCleanup fs p true = fs := by
  have hsrc := ((set_path_to_file_spec fs st p).2.2 hok).2 d
  refine ⟨hsrc, rfl, ?_, rfl⟩
  show p ∉ fs.files.erase p
  exact List.Nodup.not_mem_erase hnd

/-- Witness for `import_data_removes_read_file`: the caller-supplied
`data.zip` is gone after a `keep_files=False` run and kept after a
`keep_files=True` run. -/
theorem import_data_removes_read_file_witness :
    importDataSourcePath
      (setPathToFile ⟨["data.zip", "other.txt"]⟩ {} "data.zip").state "dl.zip" =
        ("data.zip", false) ∧
    (importDataCleanup ⟨["data.zip", "other.txt"]⟩ "data.zip" false).files =
      ["data.zip", "other.txt"].erase "data.zip" ∧
    "data.zip" ∉
      (importDataCleanup ⟨["data.zip", "other.txt"]⟩ "data.zip" false).files ∧
    importDataCleanup ⟨["data.zip", "other.txt"]⟩ "data.zip" true =
      ⟨["data.zip", "other.txt"]⟩ :=
  import_data_removes_read_file ⟨["data.zip", "other.txt"]⟩ {} "data.zip"
    "dl.zip" (by decide) (by decide)

end BiokbCoconut
